import Mathlib

/-!
Verification of the nnUNet preprocessing fixture pipeline
(`Scripts/generate_fixtures.py`) and configuration extractor
(`Scripts/extract_preprocessing_params.py`).

Machine floating-point arrays are embedded as rational-valued data; numpy
operations used by the scripts (`np.round`, `np.clip`, `np.transpose`,
boolean-mask `any` reductions, index slicing) are given exact rational/Nat
semantics mirroring their documented behaviour.
-/

namespace NNUNetPre

/-- `np.round`: round half to even (banker's rounding), exact rational model. -/
def roundHalfEven (q : ℚ) : ℤ :=
  let f : ℤ := Int.floor q
  let r : ℚ := q - f
  if r < 1/2 then f
  else if 1/2 < r then f + 1
  else if f % 2 = 0 then f else f + 1

/-- `scale_factors = current_spacing / target_spacing`
(generate_fixtures.py line 136), componentwise on the 3 axes. -/
def scaleFactors (cs ts : ℚ × ℚ × ℚ) : ℚ × ℚ × ℚ :=
  (cs.1 / ts.1, cs.2.1 / ts.2.1, cs.2.2 / ts.2.2)

/-- `target_shape = np.round(np.array(current.shape) * scale_factors).astype(int)`
(generate_fixtures.py line 137). -/
def targetShape (shape : ℕ × ℕ × ℕ) (cs ts : ℚ × ℚ × ℚ) : ℤ × ℤ × ℤ :=
  let sf := scaleFactors cs ts
  (roundHalfEven ((shape.1 : ℚ) * sf.1),
   roundHalfEven ((shape.2.1 : ℚ) * sf.2.1),
   roundHalfEven ((shape.2.2 : ℚ) * sf.2.2))

/-- The spec's formulation of the resample shape law:
`round(current_shape * current_spacing / target_spacing)` per axis. -/
def specTargetShape (shape : ℕ × ℕ × ℕ) (cs ts : ℚ × ℚ × ℚ) : ℤ × ℤ × ℤ :=
  (roundHalfEven ((shape.1 : ℚ) * cs.1 / ts.1),
   roundHalfEven ((shape.2.1 : ℚ) * cs.2.1 / ts.2.1),
   roundHalfEven ((shape.2.2 : ℚ) * cs.2.2 / ts.2.2))

/-- Error raised by the resampling stage on a degenerate target shape. -/
inductive ResampleError where
  | degenerateResampleTarget (shape : ℤ × ℤ × ℤ)
  deriving DecidableEq, Repr

/-- Modelled from the spec: the resampler invoked at
generate_fixtures.py line 150 is `resample_data_or_seg_to_shape` from the
`nnunetv2` package, which is not under `src/`; per the spec it "fails with
`DegenerateResampleTarget`" when the rounded target shape contains a
non-positive dimension, "surfaced with the offending value". The target-shape
computation itself follows generate_fixtures.py lines 136-137, and on success
the stage proceeds with that shape. -/
def resampleStage (shape : ℕ × ℕ × ℕ) (cs ts : ℚ × ℚ × ℚ) :
    Except ResampleError (ℤ × ℤ × ℤ) :=
  let t := targetShape shape cs ts
  if 0 < t.1 ∧ 0 < t.2.1 ∧ 0 < t.2.2 then Except.ok t
  else Except.error (ResampleError.degenerateResampleTarget t)

/-- Channel intensity statistics record used by the normalization stage
(generate_fixtures.py lines 111-115): all four fields present. -/
structure CTStats where
  mean : ℚ
  std : ℚ
  percentile_00_5 : ℚ
  percentile_99_5 : ℚ
  deriving DecidableEq, Repr

/-- `np.clip(x, lo, hi) = min(max(x, lo), hi)`, inclusive at both bounds. -/
def npClip (lo hi x : ℚ) : ℚ := min (max x lo) hi

/-- Stage 4 of generate_fixtures.py (lines 109-121): if `"CTNormalization"`
is among the configuration's normalization schemes, clip to the percentile
bounds and then apply `(x - mean) / max(std, 1e-8)`; otherwise the array is
left unchanged (the script has no other branch and raises no error). -/
def normalizationStage (schemes : List String) (s : CTStats) (xs : List ℚ) :
    List ℚ :=
  if "CTNormalization" ∈ schemes then
    let clipped := xs.map (fun v => npClip s.percentile_00_5 s.percentile_99_5 v)
    clipped.map (fun v => (v - s.mean) / max s.std (1 / 100000000))
  else xs

/-- Evaluation: `roundHalfEven q = ⌊q⌋` when the fractional part is below 1/2. -/
theorem roundHalfEven_low (q : ℚ) (f : ℤ) (hf : Int.floor q = f)
    (h : q - (f : ℚ) < 1/2) : roundHalfEven q = f := by
  simp only [roundHalfEven, hf]
  rw [if_pos h]

/-- Evaluation: `roundHalfEven q = ⌊q⌋ + 1` when the fractional part exceeds 1/2. -/
theorem roundHalfEven_high (q : ℚ) (f : ℤ) (hf : Int.floor q = f)
    (h : 1/2 < q - (f : ℚ)) : roundHalfEven q = f + 1 := by
  simp only [roundHalfEven, hf]
  rw [if_neg (by linarith), if_pos h]

/-- `roundHalfEven 80 = 80`. -/
theorem roundHalfEven_80 : roundHalfEven 80 = 80 :=
  roundHalfEven_low 80 80 (by (rw [Int.floor_eq_iff]; norm_num)) (by norm_num)

/-- `roundHalfEven 89.6 = 90`. -/
theorem roundHalfEven_896 : roundHalfEven (448/5) = 90 :=
  roundHalfEven_high (448/5) 89 (by (rw [Int.floor_eq_iff]; norm_num)) (by norm_num)

/-- C1: For every input volume and positive current/target spacings, the target
shape computed by the resampling stage equals, per axis,
`round(current_shape * current_spacing / target_spacing)`; in particular for
shape (32,64,64), spacing (2.5,0.7,0.7) → (1.0,0.5,0.5) it is (80,90,90). -/
theorem targetShape_law (shape : ℕ × ℕ × ℕ) (cs ts : ℚ × ℚ × ℚ)
    (_hcs : 0 < cs.1 ∧ 0 < cs.2.1 ∧ 0 < cs.2.2)
    (_hts : 0 < ts.1 ∧ 0 < ts.2.1 ∧ 0 < ts.2.2) :
    targetShape shape cs ts = specTargetShape shape cs ts ∧
      targetShape (32, 64, 64) (5/2, 7/10, 7/10) (1, 1/2, 1/2) = (80, 90, 90) := by
  constructor
  · simp only [targetShape, specTargetShape, scaleFactors, mul_div_assoc]
  · simp only [targetShape, scaleFactors]
    norm_num [roundHalfEven_80, roundHalfEven_896]

/-- Witness for `targetShape_law` at a concrete positive spacing pair. -/
theorem targetShape_law_witness :
    ((0 : ℚ) < 5/2 ∧ (0 : ℚ) < 7/10 ∧ (0 : ℚ) < 7/10) ∧
      targetShape (32, 64, 64) (5/2, 7/10, 7/10) (1, 1/2, 1/2) =
        specTargetShape (32, 64, 64) (5/2, 7/10, 7/10) (1, 1/2, 1/2) :=
  ⟨by norm_num,
    (targetShape_law (32, 64, 64) (5/2, 7/10, 7/10) (1, 1/2, 1/2)
      (by norm_num) (by norm_num)).1⟩

/-- C2: When the CT-style scheme is selected, every output sample is
`(clip(x, p00_5, p99_5) - mean) / max(std, 1e-8)`, the clip being inclusive at
both bounds (a sample already inside the bounds is unchanged) and the divisor
floor being exactly 1e-8. -/
theorem ctNormalization_formula (schemes : List String) (s : CTStats)
    (xs : List ℚ) (hct : "CTNormalization" ∈ schemes) :
    normalizationStage schemes s xs =
      xs.map (fun x =>
        (npClip s.percentile_00_5 s.percentile_99_5 x - s.mean) /
          max s.std (1 / 100000000)) ∧
    (∀ x : ℚ, s.percentile_00_5 ≤ x → x ≤ s.percentile_99_5 →
      npClip s.percentile_00_5 s.percentile_99_5 x = x) := by
  constructor
  · simp [normalizationStage, hct]
  · intro x hlo hhi
    simp [npClip, max_eq_left hlo, min_eq_left hhi]

/-- Witness for `ctNormalization_formula` at a concrete scheme list, statistics
record and sample list. -/
theorem ctNormalization_formula_witness :
    "CTNormalization" ∈ ["CTNormalization"] ∧
      normalizationStage ["CTNormalization"] ⟨201/2, 251/5, -1024, 1500⟩ [2000, 0] =
        [2000, 0].map (fun x =>
          (npClip (-1024) 1500 x - 201/2) / max (251/5) (1 / 100000000)) :=
  ⟨by decide,
    (ctNormalization_formula ["CTNormalization"] ⟨201/2, 251/5, -1024, 1500⟩
      [2000, 0] (by decide)).1⟩

/-- C6 counterexample: with a scheme identifier that is none of the supported
schemes (CT-style, plain z-score, identity), the normalization stage of
generate_fixtures.py does not fail; it silently returns the array unchanged. -/
theorem unsupportedScheme_no_failure :
    normalizationStage ["FancyNorm"] ⟨0, 1, 0, 1⟩ [3, 7] = [3, 7] := by
  decide

/-- C6 amended: whenever the scheme list does not contain `"CTNormalization"`
(in particular for any unsupported identifier), the normalization stage leaves
the array unchanged and raises no error. -/
theorem unsupportedScheme_identity (schemes : List String) (s : CTStats)
    (xs : List ℚ) (h : "CTNormalization" ∉ schemes) :
    normalizationStage schemes s xs = xs := by
  simp [normalizationStage, h]

/-- Witness for `unsupportedScheme_identity` at a concrete unsupported scheme. -/
theorem unsupportedScheme_identity_witness :
    "CTNormalization" ∉ ["FancyNorm"] ∧
      normalizationStage ["FancyNorm"] ⟨0, 1, 0, 1⟩ [5, 6] = [5, 6] :=
  ⟨by decide, unsupportedScheme_identity ["FancyNorm"] ⟨0, 1, 0, 1⟩ [5, 6] (by decide)⟩

/-- C8: whenever the per-axis rounding yields a non-positive component, the
resampling stage fails with `DegenerateResampleTarget` (carrying the offending
shape) instead of proceeding. -/
theorem resampleStage_degenerate (shape : ℕ × ℕ × ℕ) (cs ts : ℚ × ℚ × ℚ)
    (h : (targetShape shape cs ts).1 ≤ 0 ∨ (targetShape shape cs ts).2.1 ≤ 0 ∨
      (targetShape shape cs ts).2.2 ≤ 0) :
    resampleStage shape cs ts =
      Except.error (ResampleError.degenerateResampleTarget (targetShape shape cs ts)) := by
  have hnot : ¬(0 < (targetShape shape cs ts).1 ∧ 0 < (targetShape shape cs ts).2.1 ∧
      0 < (targetShape shape cs ts).2.2) := by
    rcases h with h | h | h <;> intro hc <;> rcases hc with ⟨h1, h2, h3⟩ <;> omega
  simp [resampleStage, hnot]

/-- `roundHalfEven 0.1 = 0`. -/
theorem roundHalfEven_tenth : roundHalfEven (1/10) = 0 :=
  roundHalfEven_low (1/10) 0 (by (rw [Int.floor_eq_iff]; norm_num)) (by norm_num)

/-- The degenerate concrete target shape used in the resampler witness. -/
theorem targetShape_degenerate_example :
    (targetShape (1, 1, 1) (1/10, 1, 1) (1, 1, 1)).1 ≤ 0 := by
  simp only [targetShape, scaleFactors]
  norm_num [roundHalfEven_tenth]

/-- Witness for `resampleStage_degenerate`: shape (1,1,1) at spacing 0.1 → 1
rounds to a zero first component. -/
theorem resampleStage_degenerate_witness :
    ((targetShape (1, 1, 1) (1/10, 1, 1) (1, 1, 1)).1 ≤ 0 ∨
      (targetShape (1, 1, 1) (1/10, 1, 1) (1, 1, 1)).2.1 ≤ 0 ∨
      (targetShape (1, 1, 1) (1/10, 1, 1) (1, 1, 1)).2.2 ≤ 0) ∧
    resampleStage (1, 1, 1) (1/10, 1, 1) (1, 1, 1) =
      Except.error (ResampleError.degenerateResampleTarget
        (targetShape (1, 1, 1) (1/10, 1, 1) (1, 1, 1))) :=
  ⟨Or.inl targetShape_degenerate_example,
    resampleStage_degenerate (1, 1, 1) (1/10, 1, 1) (1, 1, 1)
      (Or.inl targetShape_degenerate_example)⟩

/-! ## Configuration extractor (`Scripts/extract_preprocessing_params.py`) -/

/-- Resampling keyword arguments (`is_seg`, `order`, `order_z`,
`force_separate_z`). -/
structure ResampleKwargs where
  is_seg : Bool
  order : ℕ
  order_z : ℕ
  force_separate_z : Option Bool
  deriving DecidableEq, Repr

/-- One entry of `plans["configurations"]`; `Option` fields model JSON keys the
script reads through `.get(...)` with a default. -/
structure ConfigEntry where
  spacing : List ℚ
  patch_size : List ℤ
  normalization_schemes : List String
  use_mask_for_norm : Option (List Bool)
  resampling_fn_data : Option String
  resampling_fn_data_kwargs : Option ResampleKwargs
  resampling_fn_seg : Option String
  resampling_fn_seg_kwargs : Option ResampleKwargs
  deriving DecidableEq, Repr

/-- The plan document: configurations keyed by name plus the optional
top-level transpose permutations. -/
structure Plans where
  configurations : List (String × ConfigEntry)
  transpose_forward : Option (List ℕ)
  transpose_backward : Option (List ℕ)
  deriving DecidableEq, Repr

/-- Per-channel intensity statistics as found in the fingerprint document;
each of the four keys may be absent. -/
structure ChannelProps where
  mean : Option ℚ
  std : Option ℚ
  percentile_00_5 : Option ℚ
  percentile_99_5 : Option ℚ
  deriving DecidableEq, Repr

/-- The fingerprint document. -/
structure Fingerprint where
  foreground_intensity_properties_per_channel : Option (List (String × ChannelProps))
  spacing : Option (List ℚ)
  shapes_after_crop : Option (List (List ℕ))
  deriving DecidableEq, Repr

/-- The resolved parameter record built at lines 39-80 of
extract_preprocessing_params.py. -/
structure PreprocessingParams where
  configuration_name : String
  target_spacing : List ℚ
  patch_size : List ℤ
  transpose_forward : List ℕ
  transpose_backward : List ℕ
  normalization_schemes : List String
  use_mask_for_norm : List Bool
  foreground_intensity_properties : List (String × ChannelProps)
  resampling_fn_data : String
  resampling_fn_data_kwargs : ResampleKwargs
  resampling_fn_seg : String
  resampling_fn_seg_kwargs : ResampleKwargs
  anisotropy_threshold : ℚ
  original_spacing : List ℚ
  original_median_shape : List ℕ
  deriving DecidableEq, Repr

/-- The two `ValueError`s the extractor can raise. -/
inductive ExtractError where
  | configurationNotFound (requested : String) (available : List String)
  | missingNormalizationStatistics (missing : List String) (available : List String)
  deriving DecidableEq, Repr

/-- Python dict lookup on the configurations mapping. -/
def lookupConfig (plans : Plans) (name : String) : Option ConfigEntry :=
  (plans.configurations.find? (fun kv => kv.1 = name)).map Prod.snd

/-- `list(plans["configurations"].keys())`. -/
def configKeys (plans : Plans) : List String :=
  plans.configurations.map Prod.fst

/-- Python dict lookup on the per-channel statistics mapping. -/
def lookupChannel (props : List (String × ChannelProps)) (key : String) :
    Option ChannelProps :=
  (props.find? (fun kv => kv.1 = key)).map Prod.snd

/-- `required_keys = ["mean", "std", "percentile_00_5", "percentile_99_5"]`. -/
def requiredStatKeys : List String :=
  ["mean", "std", "percentile_00_5", "percentile_99_5"]

/-- `k in channel_props` for one of the four statistic keys. -/
def hasStatKey (p : ChannelProps) (k : String) : Bool :=
  if k = "mean" then p.mean.isSome
  else if k = "std" then p.std.isSome
  else if k = "percentile_00_5" then p.percentile_00_5.isSome
  else if k = "percentile_99_5" then p.percentile_99_5.isSome
  else false

/-- `missing_keys = [k for k in required_keys if k not in channel_props]`. -/
def missingStatKeys (p : ChannelProps) : List String :=
  requiredStatKeys.filter (fun k => ¬ hasStatKey p k)

/-- `list(channel_props.keys())`, restricted to the modelled statistic keys
(in the fixed field order of the record). -/
def presentStatKeys (p : ChannelProps) : List String :=
  requiredStatKeys.filter (fun k => hasStatKey p k)

/-- A channel-properties record with every key absent (`{}` in Python). -/
def emptyChannelProps : ChannelProps := ⟨none, none, none, none⟩

/-- The `params` dict literal built at lines 39-80 of
extract_preprocessing_params.py, including every documented default. -/
def buildParams (plans : Plans) (fingerprint : Fingerprint)
    (configuration : String) (config : ConfigEntry) : PreprocessingParams :=
  { configuration_name := configuration
    target_spacing := config.spacing
    patch_size := config.patch_size
    transpose_forward := plans.transpose_forward.getD [0, 1, 2]
    transpose_backward := plans.transpose_backward.getD [0, 1, 2]
    normalization_schemes := config.normalization_schemes
    use_mask_for_norm := config.use_mask_for_norm.getD [false]
    foreground_intensity_properties :=
      fingerprint.foreground_intensity_properties_per_channel.getD []
    resampling_fn_data := config.resampling_fn_data.getD "resample_data_or_seg_to_shape"
    resampling_fn_data_kwargs := config.resampling_fn_data_kwargs.getD ⟨false, 3, 0, none⟩
    resampling_fn_seg := config.resampling_fn_seg.getD "resample_data_or_seg_to_shape"
    resampling_fn_seg_kwargs := config.resampling_fn_seg_kwargs.getD ⟨true, 1, 0, none⟩
    anisotropy_threshold := 3
    original_spacing := fingerprint.spacing.getD []
    original_median_shape :=
      match fingerprint.shapes_after_crop with
      | some (s :: _) => s
      | _ => [] }

/-- The channel `"0"` statistics looked up at line 84
(`params["foreground_intensity_properties"].get("0", {})`). -/
def channel0Props (fingerprint : Fingerprint) : ChannelProps :=
  (lookupChannel (fingerprint.foreground_intensity_properties_per_channel.getD [])
    "0").getD emptyChannelProps

/-- `extract_preprocessing_params` (lines 19-93): looks the configuration up,
builds the fully populated parameter record with all documented defaults, then
validates the CT-normalization statistics for channel "0". -/
def extract_preprocessing_params (plans : Plans) (fingerprint : Fingerprint)
    (configuration : String) : Except ExtractError PreprocessingParams :=
  match lookupConfig plans configuration with
  | none =>
      Except.error (ExtractError.configurationNotFound configuration (configKeys plans))
  | some config =>
      let params := buildParams plans fingerprint configuration config
      if "CTNormalization" ∈ config.normalization_schemes then
        let channelProps := channel0Props fingerprint
        let missing := missingStatKeys channelProps
        if missing = [] then Except.ok params
        else Except.error
          (ExtractError.missingNormalizationStatistics missing (presentStatKeys channelProps))
      else Except.ok params

/-- Membership in the configuration keys is equivalent to a successful lookup. -/
theorem mem_configKeys_iff (plans : Plans) (name : String) :
    name ∈ configKeys plans ↔ ∃ c, lookupConfig plans name = some c := by
  constructor
  · intro hmem
    rcases List.mem_map.1 hmem with ⟨kv, hkv, hfst⟩
    have hsome : (plans.configurations.find? (fun kv => kv.1 = name)).isSome := by
      rw [List.find?_isSome]
      exact ⟨kv, hkv, by simp [hfst]⟩
    rcases Option.isSome_iff_exists.1 hsome with ⟨kv', hkv'⟩
    exact ⟨kv'.2, by simp [lookupConfig, hkv']⟩
  · rintro ⟨c, hc⟩
    rcases Option.map_eq_some'.1 hc with ⟨kv, hfind, _⟩
    have hp := List.find?_some hfind
    have hmem := List.mem_of_find?_eq_some hfind
    refine List.mem_map.2 ⟨kv, hmem, ?_⟩
    simpa using hp

/-- C4: for every plan document and requested configuration name, the extractor
either returns a fully populated record whose name is the requested one (when
the name is a key of the plan's configurations, with only the statistics
validation as the other possible outcome), or fails with
`ConfigurationNotFound` carrying the requested name and the list of all
configuration names; it never returns a result for an absent name. -/
theorem extract_configuration_lookup (plans : Plans) (fp : Fingerprint)
    (name : String) :
    (name ∉ configKeys plans →
      extract_preprocessing_params plans fp name =
        Except.error (ExtractError.configurationNotFound name (configKeys plans))) ∧
    (name ∈ configKeys plans →
      (∃ p, extract_preprocessing_params plans fp name = Except.ok p ∧
        p.configuration_name = name) ∨
      (∃ m a, extract_preprocessing_params plans fp name =
        Except.error (ExtractError.missingNormalizationStatistics m a))) := by
  cases h : lookupConfig plans name with
  | none =>
      refine ⟨fun _ => by simp [extract_preprocessing_params, h], fun hmem => ?_⟩
      rcases (mem_configKeys_iff plans name).1 hmem with ⟨c, hc⟩
      rw [h] at hc
      exact absurd hc (by simp)
  | some config =>
      have hmem : name ∈ configKeys plans :=
        (mem_configKeys_iff plans name).2 ⟨config, h⟩
      refine ⟨fun hn => absurd hmem hn, fun _ => ?_⟩
      simp only [extract_preprocessing_params, h]
      by_cases hct : "CTNormalization" ∈ config.normalization_schemes
      · simp only [if_pos hct]
        by_cases hmiss : missingStatKeys (channel0Props fp) = []
        · exact Or.inl ⟨_, by rw [if_pos hmiss], rfl⟩
        · exact Or.inr ⟨_, _, by rw [if_neg hmiss]⟩
      · exact Or.inl ⟨_, by rw [if_neg hct], rfl⟩

/-- A concrete configuration entry used by the extractor witnesses. -/
def exampleConfig : ConfigEntry :=
  { spacing := [1, 1/2, 1/2]
    patch_size := [32, 64, 64]
    normalization_schemes := ["CTNormalization"]
    use_mask_for_norm := none
    resampling_fn_data := none
    resampling_fn_data_kwargs := none
    resampling_fn_seg := none
    resampling_fn_seg_kwargs := none }

/-- A concrete plan document used by the extractor witnesses. -/
def examplePlans : Plans :=
  { configurations := [("3d_fullres", exampleConfig)]
    transpose_forward := none
    transpose_backward := none }

/-- A concrete fingerprint document (channel "0" fully populated) used by the
extractor witnesses. -/
def exampleFingerprint : Fingerprint :=
  { foreground_intensity_properties_per_channel :=
      some [("0", ⟨some 100, some 50, some (-1024), some 1500⟩)]
    spacing := some [3, 1, 1]
    shapes_after_crop := some [[40, 50, 60], [41, 51, 61]] }

/-- Witness for `extract_configuration_lookup`: an absent name yields the
`ConfigurationNotFound` error listing the valid keys. -/
theorem extract_configuration_lookup_witness :
    "2d" ∉ configKeys examplePlans ∧
      extract_preprocessing_params examplePlans exampleFingerprint "2d" =
        Except.error (ExtractError.configurationNotFound "2d" (configKeys examplePlans)) :=
  ⟨by decide,
    (extract_configuration_lookup examplePlans exampleFingerprint "2d").1 (by decide)⟩

/-- Inversion: a successful extraction comes from a found configuration and
returns exactly the built parameter record. -/
theorem extract_ok_inv (plans : Plans) (fp : Fingerprint) (name : String)
    (p : PreprocessingParams)
    (hok : extract_preprocessing_params plans fp name = Except.ok p) :
    ∃ config, lookupConfig plans name = some config ∧
      p = buildParams plans fp name config := by
  cases hl : lookupConfig plans name with
  | none => simp [extract_preprocessing_params, hl] at hok
  | some config =>
      refine ⟨config, rfl, ?_⟩
      simp only [extract_preprocessing_params, hl] at hok
      split at hok
      · split at hok
        · exact (Except.ok.injEq _ _ ▸ congrArg id hok).symm ▸ (Except.ok.inj hok).symm
        · cases hok
      · exact (Except.ok.inj hok).symm

/-- The four statistic keys are all present iff no key is missing. -/
theorem missingStatKeys_eq_nil_iff (p : ChannelProps) :
    missingStatKeys p = [] ↔
      (p.mean.isSome ∧ p.std.isSome ∧
        p.percentile_00_5.isSome ∧ p.percentile_99_5.isSome) := by
  cases hm : p.mean <;> cases hs : p.std <;>
    cases h5 : p.percentile_00_5 <;> cases h9 : p.percentile_99_5 <;>
      simp [missingStatKeys, requiredStatKeys, hasStatKey, hm, hs, h5, h9]

/-- C5: if the resolved scheme list contains the CT-style scheme, the extractor
fails with `MissingNormalizationStatistics` naming exactly the channel-"0"
fields that are absent, and does not fail from this validation when all four
fields are present. -/
theorem extract_ct_stats_validation (plans : Plans) (fp : Fingerprint)
    (name : String) (config : ConfigEntry)
    (h : lookupConfig plans name = some config)
    (hct : "CTNormalization" ∈ config.normalization_schemes) :
    (missingStatKeys (channel0Props fp) ≠ [] →
      extract_preprocessing_params plans fp name =
        Except.error (ExtractError.missingNormalizationStatistics
          (missingStatKeys (channel0Props fp))
          (presentStatKeys (channel0Props fp)))) ∧
    ((channel0Props fp).mean.isSome ∧ (channel0Props fp).std.isSome ∧
        (channel0Props fp).percentile_00_5.isSome ∧
        (channel0Props fp).percentile_99_5.isSome →
      extract_preprocessing_params plans fp name =
        Except.ok (buildParams plans fp name config)) ∧
    (∀ k, k ∈ missingStatKeys (channel0Props fp) ↔
      k ∈ requiredStatKeys ∧ hasStatKey (channel0Props fp) k = false) := by
  refine ⟨fun hmiss => ?_, fun hall => ?_, fun k => ?_⟩
  · simp only [extract_preprocessing_params, h, if_pos hct]
    rw [if_neg hmiss]
  · have hnil : missingStatKeys (channel0Props fp) = [] :=
      (missingStatKeys_eq_nil_iff _).2 hall
    simp only [extract_preprocessing_params, h, if_pos hct]
    rw [if_pos hnil]
  · simp [missingStatKeys, List.mem_filter]

/-- A fingerprint whose channel "0" lacks `std` and `percentile_99_5`. -/
def exampleFingerprintMissing : Fingerprint :=
  { foreground_intensity_properties_per_channel :=
      some [("0", ⟨some 100, none, some (-1024), none⟩)]
    spacing := some [3, 1, 1]
    shapes_after_crop := some [[40, 50, 60], [41, 51, 61]] }

/-- Witness for `extract_ct_stats_validation`: with `std` and
`percentile_99_5` absent the extractor reports exactly those two keys. -/
theorem extract_ct_stats_validation_witness :
    lookupConfig examplePlans "3d_fullres" = some exampleConfig ∧
      "CTNormalization" ∈ exampleConfig.normalization_schemes ∧
      missingStatKeys (channel0Props exampleFingerprintMissing) ≠ [] ∧
      extract_preprocessing_params examplePlans exampleFingerprintMissing "3d_fullres" =
        Except.error (ExtractError.missingNormalizationStatistics
          (missingStatKeys (channel0Props exampleFingerprintMissing))
          (presentStatKeys (channel0Props exampleFingerprintMissing))) :=
  ⟨rfl, by decide, by decide,
    (extract_ct_stats_validation examplePlans exampleFingerprintMissing "3d_fullres"
        exampleConfig rfl (by decide)).1 (by decide)⟩

/-- C9: the `original_median_shape` field of a successfully resolved record is
the first element of the fingerprint's `shapes_after_crop` list when that list
is present and non-empty, and the empty list otherwise. -/
theorem extract_original_median_shape (plans : Plans) (fp : Fingerprint)
    (name : String) (p : PreprocessingParams)
    (hok : extract_preprocessing_params plans fp name = Except.ok p) :
    (∀ s rest, fp.shapes_after_crop = some (s :: rest) →
      p.original_median_shape = s) ∧
    (fp.shapes_after_crop = none → p.original_median_shape = []) ∧
    (fp.shapes_after_crop = some [] → p.original_median_shape = []) := by
  rcases extract_ok_inv plans fp name p hok with ⟨config, -, rfl⟩
  refine ⟨fun s rest hs => ?_, fun hs => ?_, fun hs => ?_⟩ <;>
    simp [buildParams, hs]

/-- The record resolved from the example plan and fingerprint documents. -/
def exampleParams : PreprocessingParams :=
  { configuration_name := "3d_fullres"
    target_spacing := [1, 1/2, 1/2]
    patch_size := [32, 64, 64]
    transpose_forward := [0, 1, 2]
    transpose_backward := [0, 1, 2]
    normalization_schemes := ["CTNormalization"]
    use_mask_for_norm := [false]
    foreground_intensity_properties :=
      [("0", ⟨some 100, some 50, some (-1024), some 1500⟩)]
    resampling_fn_data := "resample_data_or_seg_to_shape"
    resampling_fn_data_kwargs := ⟨false, 3, 0, none⟩
    resampling_fn_seg := "resample_data_or_seg_to_shape"
    resampling_fn_seg_kwargs := ⟨true, 1, 0, none⟩
    anisotropy_threshold := 3
    original_spacing := [3, 1, 1]
    original_median_shape := [40, 50, 60] }

/-- Witness for `extract_original_median_shape`: the example fingerprint lists
two recorded shapes and the resolved record carries the first one. -/
theorem extract_original_median_shape_witness :
    extract_preprocessing_params examplePlans exampleFingerprint "3d_fullres" =
        Except.ok exampleParams ∧
      exampleFingerprint.shapes_after_crop = some ([40, 50, 60] :: [[41, 51, 61]]) ∧
      exampleParams.original_median_shape = [40, 50, 60] :=
  ⟨rfl, rfl,
    (extract_original_median_shape examplePlans exampleFingerprint "3d_fullres"
        exampleParams rfl).1 [40, 50, 60] [[41, 51, 61]] rfl⟩

/-- C10: the `anisotropy_threshold` field of every successfully resolved record
equals exactly 3.0, whatever the plan and fingerprint documents contain. -/
theorem extract_anisotropy_threshold (plans : Plans) (fp : Fingerprint)
    (name : String) (p : PreprocessingParams)
    (hok : extract_preprocessing_params plans fp name = Except.ok p) :
    p.anisotropy_threshold = 3 := by
  rcases extract_ok_inv plans fp name p hok with ⟨config, -, rfl⟩
  rfl

/-- Witness for `extract_anisotropy_threshold` on the example documents. -/
theorem extract_anisotropy_threshold_witness :
    extract_preprocessing_params examplePlans exampleFingerprint "3d_fullres" =
        Except.ok exampleParams ∧
      exampleParams.anisotropy_threshold = 3 :=
  ⟨rfl,
    extract_anisotropy_threshold examplePlans exampleFingerprint "3d_fullres"
      exampleParams rfl⟩

/-! ## Axis transpose (stage 2, generate_fixtures.py lines 74-76) -/

/-- A 3D volume with per-axis extent, sample data indexed by a 3-coordinate
function, and the matching spacing vector. -/
structure PVolume where
  shape : Fin 3 → ℕ
  data : (Fin 3 → ℕ) → ℚ
  spacing : Fin 3 → ℚ

/-- `np.transpose(current, axes)` together with `spacing[axes]`
(generate_fixtures.py lines 75-76): output axis `k` is input axis `axes k`,
so the output sample at index `i` is the input sample at the index whose
component `m` is `i (axes⁻¹ m)`; numpy validates that `axes` is a permutation,
modelled by taking it as an `Equiv.Perm`. -/
def npTranspose (axes : Equiv.Perm (Fin 3)) (v : PVolume) : PVolume :=
  { shape := fun k => v.shape (axes k)
    data := fun idx => v.data (fun m => idx (axes.symm m))
    spacing := fun k => v.spacing (axes k) }

/-- C7: for every volume and every pair of 3-element permutations that are
mutual inverses, transposing with the forward permutation and then with the
backward permutation returns the original array and spacing exactly. -/
theorem npTranspose_roundtrip (fwd bwd : Equiv.Perm (Fin 3)) (v : PVolume)
    (_hfb : ∀ i, bwd (fwd i) = i) (hbf : ∀ i, fwd (bwd i) = i) :
    npTranspose bwd (npTranspose fwd v) = v := by
  have hsymm : ∀ m, bwd.symm (fwd.symm m) = m := by
    intro m
    rw [Equiv.symm_apply_eq, Equiv.symm_apply_eq]
    exact (hbf m).symm
  cases v with
  | mk shape data spacing =>
      simp only [npTranspose, PVolume.mk.injEq]
      refine ⟨funext fun k => ?_, funext fun idx => ?_, funext fun k => ?_⟩
      · rw [hbf]
      · congr 1
        funext m
        rw [hsymm]
      · rw [hbf]

/-- A concrete volume for the transpose witness. -/
def exampleVolume : PVolume :=
  { shape := fun k => 8 * (k : ℕ) + 4
    data := fun idx => (idx 0 : ℚ) + 2 * (idx 1 : ℚ) + 3 * (idx 2 : ℚ)
    spacing := fun k => (k : ℕ) + 1 }

/-- The forward permutation `[1, 2, 0]` used by the transpose witness. -/
def examplePerm : Equiv.Perm (Fin 3) := finRotate 3

/-- Witness for `npTranspose_roundtrip`: the 3-cycle and its inverse restore
the example volume. -/
theorem npTranspose_roundtrip_witness :
    (∀ i, examplePerm.symm (examplePerm i) = i) ∧
      npTranspose examplePerm.symm (npTranspose examplePerm exampleVolume) =
        exampleVolume :=
  ⟨by decide,
    npTranspose_roundtrip examplePerm examplePerm.symm exampleVolume
      (by decide) (by decide)⟩

/-! ## Foreground crop (stage 3, generate_fixtures.py lines 84-107) -/

/-- A 3D volume for the cropping stage: extents along the three axes and the
sample data (indices outside the extents are never inspected). -/
structure Volume3 where
  d : ℕ
  h : ℕ
  w : ℕ
  data : ℕ → ℕ → ℕ → ℚ

/-- Projection of the nonzero mask onto axis 0
(`nonzero_mask.any(axis=(1,2))`). -/
def proj0 (v : Volume3) (z : ℕ) : Bool :=
  (List.range v.h).any fun y =>
    (List.range v.w).any fun x => decide (v.data z y x ≠ 0)

/-- Projection of the nonzero mask onto axis 1
(`nonzero_mask.any(axis=(0,2))`). -/
def proj1 (v : Volume3) (y : ℕ) : Bool :=
  (List.range v.d).any fun z =>
    (List.range v.w).any fun x => decide (v.data z y x ≠ 0)

/-- Projection of the nonzero mask onto axis 2
(`nonzero_mask.any(axis=(0,1))`). -/
def proj2 (v : Volume3) (x : ℕ) : Bool :=
  (List.range v.d).any fun z =>
    (List.range v.h).any fun y => decide (v.data z y x ≠ 0)

/-- `nonzero_mask.any()`. -/
def maskAny (v : Volume3) : Bool :=
  (List.range v.d).any (proj0 v)

/-- Per-axis bounding interval (generate_fixtures.py lines 90-95):
`indices = np.where(axis_mask)[0]`; `(indices[0], indices[-1] + 1)` when some
index is set, `(0, n)` otherwise. -/
def bboxAxis (n : ℕ) (p : ℕ → Bool) : ℕ × ℕ :=
  let idx := (List.range n).filter p
  if hne : idx = [] then (0, n)
  else (idx.head hne, idx.getLast hne + 1)

/-- The crop bounding box (lines 86-101): per-axis intervals when the mask has
any nonzero sample, the full extent otherwise. -/
def cropBBox (v : Volume3) : (ℕ × ℕ) × (ℕ × ℕ) × (ℕ × ℕ) :=
  if maskAny v then
    (bboxAxis v.d (proj0 v), bboxAxis v.h (proj1 v), bboxAxis v.w (proj2 v))
  else ((0, v.d), (0, v.h), (0, v.w))

/-- The cropped array (`current[slices]`, line 98): extents are the interval
lengths and the data is offset by the interval starts. -/
def cropVolume (v : Volume3) : Volume3 :=
  { d := (cropBBox v).1.2 - (cropBBox v).1.1
    h := (cropBBox v).2.1.2 - (cropBBox v).2.1.1
    w := (cropBBox v).2.2.2 - (cropBBox v).2.2.1
    data := fun z y x =>
      v.data ((cropBBox v).1.1 + z) ((cropBBox v).2.1.1 + y)
        ((cropBBox v).2.2.1 + x) }

/-- In a strictly sorted list the head is a lower bound. -/
theorem head_le_of_sorted :
    ∀ (l : List ℕ), l.Pairwise (· < ·) → ∀ (hne : l ≠ []),
      ∀ i ∈ l, l.head hne ≤ i := by
  intro l
  cases l with
  | nil => intro _ hne; exact absurd rfl hne
  | cons a t =>
      intro hp _ i hi
      rcases List.mem_cons.1 hi with rfl | hit
      · simp
      · simpa using le_of_lt (List.rel_of_pairwise_cons hp hit)

/-- In a strictly sorted list the last element is an upper bound. -/
theorem le_getLast_of_sorted :
    ∀ (l : List ℕ), l.Pairwise (· < ·) → ∀ (hne : l ≠ []),
      ∀ i ∈ l, i ≤ l.getLast hne := by
  intro l
  induction l with
  | nil => intro _ hne; exact absurd rfl hne
  | cons a t ih =>
      intro hp _ i hi
      rcases List.pairwise_cons.1 hp with ⟨ha, ht⟩
      by_cases hte : t = []
      · subst hte
        rcases List.mem_singleton.1 hi with rfl
        simp
      · rw [List.getLast_cons hte]
        rcases List.mem_cons.1 hi with rfl | hit
        · exact le_of_lt (ha _ (List.getLast_mem hte))
        · exact ih ht hte i hit

/-- Characterization of `bboxAxis` when the axis mask is somewhere set: both
endpoints hit set indices, every set index is inside the closed-open interval,
and the interval is nonempty. -/
theorem bboxAxis_spec (n : ℕ) (p : ℕ → Bool)
    (hne : ∃ i, i < n ∧ p i = true) :
    p (bboxAxis n p).1 = true ∧ (bboxAxis n p).1 < n ∧
    p ((bboxAxis n p).2 - 1) = true ∧ (bboxAxis n p).2 - 1 < n ∧
    (∀ i, i < n → p i = true → (bboxAxis n p).1 ≤ i ∧ i < (bboxAxis n p).2) ∧
    (bboxAxis n p).1 < (bboxAxis n p).2 := by
  rcases hne with ⟨i0, hi0n, hpi0⟩
  have hmem : i0 ∈ (List.range n).filter p := by
    simp [List.mem_filter, List.mem_range, hi0n, hpi0]
  have hnn : (List.range n).filter p ≠ [] := by
    intro hc
    rw [hc] at hmem
    exact absurd hmem (List.not_mem_nil i0)
  have hsorted : ((List.range n).filter p).Pairwise (· < ·) :=
    List.Pairwise.sublist (List.filter_sublist _) (List.sorted_lt_range n)
  have hbb : bboxAxis n p =
      (((List.range n).filter p).head hnn,
        ((List.range n).filter p).getLast hnn + 1) := by
    simp only [bboxAxis]
    rw [dif_neg hnn]
  have hheadmem := List.head_mem hnn
  have hlastmem := List.getLast_mem hnn
  have hhead : p (((List.range n).filter p).head hnn) = true ∧
      ((List.range n).filter p).head hnn < n := by
    have := List.mem_filter.1 hheadmem
    exact ⟨this.2, List.mem_range.1 this.1⟩
  have hlast : p (((List.range n).filter p).getLast hnn) = true ∧
      ((List.range n).filter p).getLast hnn < n := by
    have := List.mem_filter.1 hlastmem
    exact ⟨this.2, List.mem_range.1 this.1⟩
  rw [hbb]
  refine ⟨hhead.1, hhead.2, by simpa using hlast.1, by simpa using hlast.2,
    fun i hin hpi => ?_, ?_⟩
  · have himem : i ∈ (List.range n).filter p := by
      simp [List.mem_filter, List.mem_range, hin, hpi]
    exact ⟨head_le_of_sorted _ hsorted hnn i himem,
      Nat.lt_succ_of_le (le_getLast_of_sorted _ hsorted hnn i himem)⟩
  · exact Nat.lt_succ_of_le
      (le_getLast_of_sorted _ hsorted hnn _ hheadmem)

/-- `bboxAxis` returns the full extent when the axis mask is empty. -/
theorem bboxAxis_empty (n : ℕ) (p : ℕ → Bool)
    (hall : ∀ i, i < n → p i = false) : bboxAxis n p = (0, n) := by
  have hnil : (List.range n).filter p = [] := by
    rw [List.filter_eq_nil_iff]
    intro a ha
    simp [hall a (List.mem_range.1 ha)]
  simp [bboxAxis, hnil]

/-- `proj0` holds exactly when the slice at that depth has a nonzero sample. -/
theorem proj0_eq_true_iff (v : Volume3) (z : ℕ) :
    proj0 v z = true ↔ ∃ y, y < v.h ∧ ∃ x, x < v.w ∧ v.data z y x ≠ 0 := by
  simp [proj0, List.any_eq_true, List.mem_range]

/-- `proj1` holds exactly when the slice at that height has a nonzero sample. -/
theorem proj1_eq_true_iff (v : Volume3) (y : ℕ) :
    proj1 v y = true ↔ ∃ z, z < v.d ∧ ∃ x, x < v.w ∧ v.data z y x ≠ 0 := by
  simp [proj1, List.any_eq_true, List.mem_range]

/-- `proj2` holds exactly when the slice at that width has a nonzero sample. -/
theorem proj2_eq_true_iff (v : Volume3) (x : ℕ) :
    proj2 v x = true ↔ ∃ z, z < v.d ∧ ∃ y, y < v.h ∧ v.data z y x ≠ 0 := by
  simp [proj2, List.any_eq_true, List.mem_range]

/-- `maskAny` holds exactly when the volume has a nonzero sample. -/
theorem maskAny_eq_true_iff (v : Volume3) :
    maskAny v = true ↔ ∃ z, z < v.d ∧ proj0 v z = true := by
  simp [maskAny, List.any_eq_true, List.mem_range]

/-- C3: cropping returns the minimal per-axis closed-open bounding box
`[first, last+1)` containing every nonzero sample: every nonzero sample lies
inside the box and is present in the cropped array at the offset position;
each boundary slice of the box contains a nonzero sample (minimality); an
all-zero volume keeps the full original extent and array; and no interval of
the box is empty. -/
theorem crop_bounding_box (v : Volume3) (hd : 0 < v.d) (hh : 0 < v.h)
    (hw : 0 < v.w) :
    (∀ z y x, z < v.d → y < v.h → x < v.w → v.data z y x ≠ 0 →
      ((cropBBox v).1.1 ≤ z ∧ z < (cropBBox v).1.2) ∧
      ((cropBBox v).2.1.1 ≤ y ∧ y < (cropBBox v).2.1.2) ∧
      ((cropBBox v).2.2.1 ≤ x ∧ x < (cropBBox v).2.2.2) ∧
      (cropVolume v).data (z - (cropBBox v).1.1) (y - (cropBBox v).2.1.1)
        (x - (cropBBox v).2.2.1) = v.data z y x) ∧
    ((∃ z, z < v.d ∧ ∃ y, y < v.h ∧ ∃ x, x < v.w ∧ v.data z y x ≠ 0) →
      (∃ y, y < v.h ∧ ∃ x, x < v.w ∧ v.data ((cropBBox v).1.1) y x ≠ 0) ∧
      (∃ y, y < v.h ∧ ∃ x, x < v.w ∧ v.data ((cropBBox v).1.2 - 1) y x ≠ 0) ∧
      (∃ z, z < v.d ∧ ∃ x, x < v.w ∧ v.data z ((cropBBox v).2.1.1) x ≠ 0) ∧
      (∃ z, z < v.d ∧ ∃ x, x < v.w ∧ v.data z ((cropBBox v).2.1.2 - 1) x ≠ 0) ∧
      (∃ z, z < v.d ∧ ∃ y, y < v.h ∧ v.data z y ((cropBBox v).2.2.1) ≠ 0) ∧
      (∃ z, z < v.d ∧ ∃ y, y < v.h ∧ v.data z y ((cropBBox v).2.2.2 - 1) ≠ 0)) ∧
    ((∀ z y x, z < v.d → y < v.h → x < v.w → v.data z y x = 0) →
      cropBBox v = ((0, v.d), (0, v.h), (0, v.w)) ∧ cropVolume v = v) ∧
    ((cropBBox v).1.1 < (cropBBox v).1.2 ∧
      (cropBBox v).2.1.1 < (cropBBox v).2.1.2 ∧
      (cropBBox v).2.2.1 < (cropBBox v).2.2.2) := by
  by_cases hmask : maskAny v = true
  · rcases (maskAny_eq_true_iff v).1 hmask with ⟨z0, hz0, hp0⟩
    rcases (proj0_eq_true_iff v z0).1 hp0 with ⟨y0, hy0, x0, hx0, hnz0⟩
    have E0 : ∃ i, i < v.d ∧ proj0 v i = true := ⟨z0, hz0, hp0⟩
    have E1 : ∃ i, i < v.h ∧ proj1 v i = true :=
      ⟨y0, hy0, (proj1_eq_true_iff v y0).2 ⟨z0, hz0, x0, hx0, hnz0⟩⟩
    have E2 : ∃ i, i < v.w ∧ proj2 v i = true :=
      ⟨x0, hx0, (proj2_eq_true_iff v x0).2 ⟨z0, hz0, y0, hy0, hnz0⟩⟩
    have S0 := bboxAxis_spec v.d (proj0 v) E0
    have S1 := bboxAxis_spec v.h (proj1 v) E1
    have S2 := bboxAxis_spec v.w (proj2 v) E2
    have hbb : cropBBox v =
        (bboxAxis v.d (proj0 v), bboxAxis v.h (proj1 v),
          bboxAxis v.w (proj2 v)) := by
      simp [cropBBox, hmask]
    refine ⟨fun z y x hz hy hx hnz => ?_, fun _ => ?_, fun hall => ?_, ?_⟩
    · have hpz : proj0 v z = true := (proj0_eq_true_iff v z).2 ⟨y, hy, x, hx, hnz⟩
      have hpy : proj1 v y = true := (proj1_eq_true_iff v y).2 ⟨z, hz, x, hx, hnz⟩
      have hpx : proj2 v x = true := (proj2_eq_true_iff v x).2 ⟨z, hz, y, hy, hnz⟩
      have hz' := S0.2.2.2.2.1 z hz hpz
      have hy' := S1.2.2.2.2.1 y hy hpy
      have hx' := S2.2.2.2.2.1 x hx hpx
      rw [hbb]
      refine ⟨hz', hy', hx', ?_⟩
      simp only [cropVolume, hbb]
      rw [Nat.add_sub_cancel' hz'.1, Nat.add_sub_cancel' hy'.1,
        Nat.add_sub_cancel' hx'.1]
    · rw [hbb]
      exact ⟨(proj0_eq_true_iff v _).1 S0.1,
        (proj0_eq_true_iff v _).1 S0.2.2.1,
        (proj1_eq_true_iff v _).1 S1.1,
        (proj1_eq_true_iff v _).1 S1.2.2.1,
        (proj2_eq_true_iff v _).1 S2.1,
        (proj2_eq_true_iff v _).1 S2.2.2.1⟩
    · exact absurd (hall z0 y0 x0 hz0 hy0 hx0) hnz0
    · rw [hbb]
      exact ⟨S0.2.2.2.2.2, S1.2.2.2.2.2, S2.2.2.2.2.2⟩
  · have hmf : maskAny v = false := Bool.eq_false_iff.2 hmask
    have hbb : cropBBox v = ((0, v.d), (0, v.h), (0, v.w)) := by
      simp [cropBBox, hmf]
    have hnone : ∀ z y x, z < v.d → y < v.h → x < v.w → v.data z y x = 0 := by
      intro z y x hz hy hx
      by_contra hnz
      exact hmask ((maskAny_eq_true_iff v).2
        ⟨z, hz, (proj0_eq_true_iff v z).2 ⟨y, hy, x, hx, hnz⟩⟩)
    refine ⟨fun z y x hz hy hx hnz => absurd (hnone z y x hz hy hx) hnz,
      fun hex => ?_, fun _ => ⟨hbb, ?_⟩, ?_⟩
    · rcases hex with ⟨z, hz, y, hy, x, hx, hnz⟩
      exact absurd (hnone z y x hz hy hx) hnz
    · cases v with
      | mk d h w data => simp [cropVolume, hbb, Volume3.mk.injEq]
    · rw [hbb]
      exact ⟨hd, hh, hw⟩

/-- A concrete 2×2×2 volume with a single nonzero sample at (1,0,1), used by
the crop witness. -/
def exampleCropVolume : Volume3 :=
  { d := 2
    h := 2
    w := 2
    data := fun z y x => if z = 1 ∧ y = 0 ∧ x = 1 then 5 else 0 }

/-- Witness for `crop_bounding_box`: the nonzero sample at (1,0,1) lies inside
the computed bounding box. -/
theorem crop_bounding_box_witness :
    (0 < exampleCropVolume.d ∧ 0 < exampleCropVolume.h ∧
        0 < exampleCropVolume.w ∧ exampleCropVolume.data 1 0 1 ≠ 0) ∧
      ((cropBBox exampleCropVolume).1.1 ≤ 1 ∧
        1 < (cropBBox exampleCropVolume).1.2) :=
  ⟨⟨by decide, by decide, by decide, by decide⟩,
    ((crop_bounding_box exampleCropVolume (by decide) (by decide) (by decide)).1
      1 0 1 (by decide) (by decide) (by decide) (by decide)).1⟩

end NNUNetPre
